import Mathlib

/-!
Verification of the decode orchestration layer of pylibjpeg-libjpeg
(`src/libjpeg/utils.py`): status-token parsing, error classification,
output shaping, colour-transform selection and input normalization.
The native engine (`_libjpeg`) is modelled as an abstract parameter,
since it is an external collaborator of the layer under study.
-/

namespace LibJpeg

/-- Image parameters dictionary returned by the native engine:
keys `rows`, `columns`, `nr_components`, `precision`. -/
structure ImageParameters where
  rows : Nat
  columns : Nat
  nr_components : Nat
  precision : Nat
deriving Repr, DecidableEq

/-- Python exceptions raised by the orchestration layer, distinguished
by their Python class and message. -/
inductive PyError where
  | runtimeError (msg : String)
  | valueError (msg : String)
  | typeError (msg : String)
  | fileNotFoundError (path : String)
  | attributeError (name : String)
deriving Repr, DecidableEq

/-- The `str.split("::::")` protocol of the status token: split a list of
characters on every occurrence of four consecutive colons, as Python
`str.split(sep)` does (all occurrences, left to right, no overlap). -/
def splitOn4 : List Char → List (List Char)
  | ':' :: ':' :: ':' :: ':' :: rest => [] :: splitOn4 rest
  | c :: rest =>
    match splitOn4 rest with
    | [] => [[c]]
    | h :: t => (c :: h) :: t
  | [] => [[]]

/-- Decimal digit value of a character, if it is a digit. -/
def digitVal (c : Char) : Option Nat :=
  if '0' ≤ c ∧ c ≤ '9' then some (c.toNat - 48) else none

/-- Accumulate decimal digits; fails on any non-digit character. -/
def parseDigitsAux : List Char → Nat → Option Nat
  | [], acc => some acc
  | c :: rest, acc =>
    match digitVal c with
    | some d => parseDigitsAux rest (acc * 10 + d)
    | none => none

/-- Python `int(s)` on the status-code portion: an optional sign followed
by at least one decimal digit (whitespace stripping and underscore
separators of Python `int` are irrelevant for engine-generated tokens
and not modelled). Returns `none` where Python raises `ValueError`. -/
def pyInt : List Char → Option Int
  | [] => none
  | '-' :: rest =>
    if rest.isEmpty then none
    else (parseDigitsAux rest 0).map (fun n => -(n : Int))
  | '+' :: rest =>
    if rest.isEmpty then none
    else (parseDigitsAux rest 0).map (fun n => (n : Int))
  | cs => (parseDigitsAux cs 0).map (fun n => (n : Int))

/-- The status-token handling shared by `decode`, `decode_pixel_data` and
`get_parameters`: `code, msg = status.split("::::"); code = int(code)`.
The tuple unpacking succeeds only when the split yields exactly two
pieces; `none` models the uncaught `ValueError` Python raises otherwise
(from the unpacking, or from `int` on a non-numeric left piece). -/
def splitStatus (status : String) : Option (Int × String) :=
  match splitOn4 status.data with
  | [c, m] => (pyInt c).map (fun code => (code, String.mk m))
  | _ => none

/-- The fixed `LIBJPEG_ERROR_CODES` table of `utils.py`. -/
def LIBJPEG_ERROR_CODES : List (Int × String) :=
  [(-1024, "A parameter for a function was out of range"),
   (-1025, "Stream run out of data"),
   (-1026, "A code block run out of data"),
   (-1027, "Tried to perform an unputc or or an unget on an empty stream"),
   (-1028, "Some parameter run out of range"),
   (-1029, "The requested operation does not apply"),
   (-1030, "Tried to create an already existing object"),
   (-1031, "Tried to access a non-existing object"),
   (-1032, "A non-optional parameter was left out"),
   (-1033, "Forgot to delay a 0xFF"),
   (-1034, "Internal error: the requested operation is not available"),
   (-1035, "Internal error: an item computed on a former pass does not coincide with the same item on a later pass"),
   (-1036, "The stream passed in is no valid jpeg stream"),
   (-1037, "A unique marker turned up more than once. The input stream is most likely corrupt"),
   (-1038, "A misplaced marker segment was found"),
   (-1040, "The specified parameters are valid, but are not supported by the selected profile. Either use a higher profile, or use simpler parameters (encoder only). "),
   (-1041, "Internal error: the worker thread that was currently active had to terminate unexpectedly"),
   (-1042, "The encoder tried to emit a symbol for which no Huffman code was defined. This happens if the standard Huffman table is used for an alphabet for which it was not defined. The reaction to this exception should be to create a custom huffman table instead"),
   (-2046, "Failed to construct the JPEG object")]

/-- Dictionary lookup `code in LIBJPEG_ERROR_CODES` / `LIBJPEG_ERROR_CODES[code]`. -/
def lookupError (code : Int) : Option String :=
  (LIBJPEG_ERROR_CODES.find? (fun p => p.1 == code)).map (fun p => p.2)

/-- A single-quote character, used in the error-message format strings. -/
def sq : String := String.singleton (Char.ofNat 39)

/-- The `raise RuntimeError(...)` taken when a nonzero status code comes
back from the engine, parameterised by the middle piece naming the native
function (`" returned from Decode(): "` or
`" returned from GetJPEGParameters(): "`): codes in `LIBJPEG_ERROR_CODES`
get the table description and the native message; others the unknown-code
form, still carrying the code and message. -/
def raiseForCode (mid : String) (code : Int) (msg : String) : PyError :=
  match lookupError code with
  | some desc =>
    .runtimeError ("libjpeg error code " ++ sq ++ toString code ++ sq ++
      mid ++ desc ++ " - " ++ msg)
  | none =>
    .runtimeError ("Unknown error code " ++ sq ++ toString code ++ sq ++
      mid ++ msg)

/-- A numpy array as the layer observes it: the element byte width
(`dtype` of `u1` or `<u2`), the shape, and the flat element values. -/
structure NDArray where
  itemsize : Nat
  shape : List Nat
  data : List Nat
deriving Repr, DecidableEq

/-- View a flat `uint8` byte list as little-endian `<u2` elements, as
`out.view("<u2")` does; fails (numpy `ValueError`) on an odd byte count. -/
def viewU2 : List Nat → Option (List Nat)
  | [] => some []
  | a :: b :: rest => (viewU2 rest).map (fun r => (a + 256 * b) :: r)
  | [_] => none

/-- The native `_libjpeg` extension module, abstract to this layer:
`decode(buffer, colour_transform, as_array)` returns a status token, the
raw output bytes and the parameter dictionary; `get_parameters(buffer)`
returns a status token and the parameter dictionary. -/
structure Engine where
  decode : List Nat → Int → Bool → String × List Nat × ImageParameters
  get_parameters : List Nat → String × ImageParameters

/-- The three kinds of `stream` argument accepted by `decode` and
`get_parameters`: a filesystem path, an in-memory byte buffer
(`bytes`/`bytearray`), or a file-like object, abstracted to which of the
`read`/`seek`/`tell` attributes it exposes and the bytes `read()` yields. -/
inductive Source where
  | path (name : String)
  | buffer (data : List Nat)
  | stream (hasRead hasSeek hasTell : Bool) (content : List Nat)

/-- The filesystem, as the map from path names to file contents. -/
def FS : Type := String → Option (List Nat)

/-- Message of the `TypeError` raised by `decode` on a file-like lacking
a required attribute (the type-name interpolation of the Python message
is not modelled). -/
def invalidTypeMsg : String :=
  "Invalid type - must be the path to a JPEG file, a buffer containing the JPEG data or an open JPEG file-like"

/-- Input normalization of `decode`: open and read a path (raising
`FileNotFoundError` for a missing one), pass a byte buffer through
unchanged, and for a file-like require the `read`, `tell` and `seek`
attributes, raising `TypeError` when any is absent, before reading. -/
def normalizeDecode (fs : FS) (src : Source) : Except PyError (List Nat) :=
  match src with
  | .path name =>
    match fs name with
    | some data => .ok data
    | none => .error (.fileNotFoundError name)
  | .buffer data => .ok data
  | .stream hasRead hasSeek hasTell content =>
    if hasRead && hasTell && hasSeek then .ok content
    else .error (.typeError invalidTypeMsg)

/-- Input normalization of `get_parameters`: paths and buffers as in
`decode`, but a file-like is used with no capability check at all —
`stream.read()` is called directly, so only a missing `read` attribute
fails (with Python `AttributeError`, not the `TypeError` of `decode`). -/
def normalizeGetParams (fs : FS) (src : Source) : Except PyError (List Nat) :=
  match src with
  | .path name =>
    match fs name with
    | some data => .ok data
    | none => .error (.fileNotFoundError name)
  | .buffer data => .ok data
  | .stream hasRead _ _ content =>
    if hasRead then .ok content else .error (.attributeError "read")

/-- The target shape built by `decode` when `reshape` is true:
`[rows, columns]`, with `nr_components` appended when it exceeds 1. -/
def targetShape (params : ImageParameters) : List Nat :=
  if params.nr_components > 1 then
    [params.rows, params.columns, params.nr_components]
  else [params.rows, params.columns]

/-- Element-width reinterpretation of the successful-decode output:
`bpp = ceil(precision / 8)`; when it is exactly 2 the byte buffer is
re-viewed as `<u2`, otherwise it stays `uint8`. Returns the element list
and the element byte width. -/
def viewedOut (out : List Nat) (params : ImageParameters) :
    Option (List Nat × Nat) :=
  if (params.precision + 7) / 8 = 2 then
    (viewU2 out).map (fun e => (e, 2))
  else some (out, 1)

/-- Message of the `ValueError` numpy raises on a failed `reshape`. -/
def reshapeFailMsg : String := "cannot reshape array"

/-- Message of the `ValueError` numpy raises on a failed `view`. -/
def viewFailMsg : String := "cannot view uint8 data as uint16"

/-- Message modelling the uncaught `ValueError` from unpacking or `int`
when the status token is malformed. -/
def statusParseFailMsg : String := "malformed status token"

/-- The `reshape`-true success path of `decode`: reinterpret the element
width from the precision, then `out.reshape(*shape)`, which fails with
`ValueError` when the element count does not match the shape product. -/
def shapeOutput (out : List Nat) (params : ImageParameters) :
    Except PyError NDArray :=
  match viewedOut out params with
  | none => .error (.valueError viewFailMsg)
  | some (elems, isz) =>
    if (targetShape params).prod = elems.length then
      .ok ⟨isz, targetShape params, elems⟩
    else .error (.valueError reshapeFailMsg)

/-- Status handling of `decode` after the native call: parse the token;
code 0 with `reshape` shapes the output, code 0 without `reshape`
returns the flat `uint8` buffer as-is, and a nonzero code raises via
the error table. -/
def classifyDecodeResult (reshape : Bool)
    (r : String × List Nat × ImageParameters) : Except PyError NDArray :=
  match splitStatus r.1 with
  | none => .error (.valueError statusParseFailMsg)
  | some (code, msg) =>
    if code = 0 then
      if reshape then shapeOutput r.2.1 r.2.2
      else .ok ⟨1, [r.2.1.length], r.2.1⟩
    else .error (raiseForCode " returned from Decode(): " code msg)

/-- `utils.decode(stream, colour_transform, reshape)`: normalize the
input, call `_libjpeg.decode(buffer, colour_transform, as_array=True)`,
then translate the status and output. -/
def decode (fs : FS) (eng : Engine) (stream : Source)
    (colour_transform : Int) (reshape : Bool) : Except PyError NDArray :=
  match normalizeDecode fs stream with
  | .error e => .error e
  | .ok buffer => classifyDecodeResult reshape (eng.decode buffer colour_transform true)

/-- `utils.get_parameters(stream)`: normalize the input (with no
file-like capability check), call `_libjpeg.get_parameters(buffer)`,
return the parameter dictionary on code 0 and raise otherwise. -/
def get_parameters (fs : FS) (eng : Engine) (stream : Source) :
    Except PyError ImageParameters :=
  match normalizeGetParams fs stream with
  | .error e => .error e
  | .ok buffer =>
    match splitStatus (eng.get_parameters buffer).1 with
    | none => .error (.valueError statusParseFailMsg)
    | some (code, msg) =>
      if code = 0 then .ok (eng.get_parameters buffer).2
      else .error (raiseForCode " returned from GetJPEGParameters(): " code msg)

/-- The fixed `COLOURSPACE` table of `utils.py`. -/
def COLOURSPACE : List (String × Int) :=
  [("MONOCHROME1", 0), ("MONOCHROME2", 0), ("RGB", 1),
   ("YBR_FULL", 0), ("YBR_FULL_422", 0)]

/-- Dictionary lookup `COLOURSPACE[pi]`, `none` for `KeyError`. -/
def lookupColourspace (pi : String) : Option Int :=
  (COLOURSPACE.find? (fun p => p.1 == pi)).map (fun p => p.2)

/-- `ds.get(key, default)` over the dataset modelled as an association
list: the dataset value whenever the key is present (even when the value
is falsy), otherwise the supplied default. -/
def dsGet (ds : List (String × String)) (key : String)
    (dflt : Option String) : Option String :=
  match ds.find? (fun p => p.1 == key) with
  | some p => some p.2
  | none => dflt

/-- Python truthiness of the looked-up photometric interpretation:
`if not pi` is taken both for an absent value and for an empty string. -/
def pyTruthy : Option String → Bool
  | none => false
  | some s => !s.isEmpty

/-- Message of the `ValueError` raised when the photometric
interpretation is missing. -/
def piMissingMsg : String :=
  "The (0028,0004) Photometric Interpretation element is missing from the dataset"

/-- The warning emitted for a photometric interpretation absent from the
`COLOURSPACE` table. -/
def warnMsg (pi : String) : String :=
  "Unsupported (0028,0004) Photometric Interpretation " ++ sq ++ pi ++ sq ++
    ", no colour transformation will be applied"

/-- Result of `decode_pixel_data`: an ndarray in version-1 mode, a raw
bytearray in version-2 mode. -/
inductive DPDResult where
  | array (a : NDArray)
  | bytes (b : List Nat)
deriving Repr, DecidableEq

/-- `utils.decode_pixel_data(src, ds, version, **kwargs)`. The dataset is
an association list ([] for both `None` and an empty dataset, which
Python's `not ds` conflates); `kwpi` is the `photometric_interpretation`
keyword argument. Returns the warnings emitted alongside the result.
Version 1 resolves the photometric interpretation (dataset first, then
keyword), raises when it is falsy, selects the colour transform from
`COLOURSPACE` with a warning-and-0 fallback, and delegates to `decode`
with `reshape=False`; any other version calls the engine directly with
colour transform 0 and `as_array=False` and returns the raw bytes. -/
def decode_pixel_data (fs : FS) (eng : Engine) (src : List Nat)
    (ds : List (String × String)) (kwpi : Option String) (version : Int) :
    List String × Except PyError DPDResult :=
  if version = 1 then
    let pi := dsGet ds "PhotometricInterpretation" kwpi
    if pyTruthy pi then
      let s := pi.getD ""
      match lookupColourspace s with
      | some t => ([], (decode fs eng (.buffer src) t false).map DPDResult.array)
      | none => ([warnMsg s], (decode fs eng (.buffer src) 0 false).map DPDResult.array)
    else ([], .error (.valueError piMissingMsg))
  else
    let r := eng.decode src 0 false
    match splitStatus r.1 with
    | none => ([], .error (.valueError statusParseFailMsg))
    | some (code, msg) =>
      if code = 0 then ([], .ok (.bytes r.2.1))
      else ([], .error (raiseForCode " returned from Decode(): " code msg))

/-! Concrete fixtures used to instantiate the theorems. -/

/-- The empty filesystem. -/
def emptyFS : FS := fun _ => none

/-- An engine that ignores its arguments and always answers with the
given status token, output bytes and parameters. -/
def mkEngine (st : String) (out : List Nat) (p : ImageParameters) : Engine :=
  ⟨fun _ _ _ => (st, out, p), fun _ => (st, p)⟩

/-- A successful engine: one 8-bit single-component 1x1 sample. -/
def okEngine8 : Engine := mkEngine "0::::" [5] ⟨1, 1, 1, 8⟩

/-- A successful engine: one 9-bit single-component 1x1 sample, two bytes. -/
def okEngine9 : Engine := mkEngine "0::::" [7, 1] ⟨1, 1, 1, 9⟩

/-- A successful engine: one 16-bit single-component 1x1 sample, two bytes. -/
def okEngine16 : Engine := mkEngine "0::::" [52, 18] ⟨1, 1, 1, 16⟩

/-- A successful engine: 2x3 three-component 8-bit samples. -/
def okEngineRGB : Engine :=
  mkEngine "0::::" [1, 2, 3, 4, 5, 6, 7, 8, 9, 10, 11, 12, 13, 14, 15, 16, 17, 18] ⟨2, 3, 3, 8⟩

/-- A successful engine whose declared parameters (1x1, one component)
do not match its three output bytes. -/
def badShapeEngine : Engine := mkEngine "0::::" [1, 2, 3] ⟨1, 1, 1, 8⟩

/-- An engine failing with table code -1036. -/
def errEngine1036 : Engine := mkEngine "-1036::::oops" [] ⟨0, 0, 0, 0⟩

/-- An engine failing with code 5, absent from the error table. -/
def errEngine5 : Engine := mkEngine "5::::odd failure" [] ⟨0, 0, 0, 0⟩

end LibJpeg

open LibJpeg

/-- Unfolding of `splitOn4` on a cons cell whose head is not a colon. -/
theorem splitOn4_cons_ne (a : Char) (rest : List Char) (ha : a ≠ ':') :
    splitOn4 (a :: rest) =
      match splitOn4 rest with
      | [] => [[a]]
      | h :: t => (a :: h) :: t := by
  conv_lhs => rw [splitOn4.eq_def]
  split
  · next heq => exact absurd (List.cons.injEq .. ▸ heq).1 ha
  · next heq =>
    cases heq
    rfl
  · next heq => cases heq

/-- The result of `splitOn4` is never the empty list. -/
theorem splitOn4_ne_nil (cs : List Char) : splitOn4 cs ≠ [] := by
  rw [splitOn4.eq_def]
  split
  · simp
  · split <;> simp
  · simp

/-- Splitting a token built from a colon-free left piece, the four-colon
delimiter and a remainder yields the left piece followed by the split of
the remainder. -/
theorem splitOn4_append (c m : List Char) (hc : ∀ x ∈ c, x ≠ ':') :
    splitOn4 (c ++ ':' :: ':' :: ':' :: ':' :: m) = c :: splitOn4 m := by
  induction c with
  | nil => simp [splitOn4]
  | cons a c ih =>
    have ha : a ≠ ':' := hc a (by simp)
    have ih2 := ih (fun x hx => hc x (by simp [hx]))
    rw [List.cons_append, splitOn4_cons_ne a _ ha, ih2]

/-- The `reshape`-true success path never raises a `RuntimeError`: its
failures (view and reshape mismatches) are `ValueError`s. -/
theorem shapeOutput_not_runtimeError (out : List Nat) (p : ImageParameters)
    (s : String) : shapeOutput out p ≠ .error (.runtimeError s) := by
  unfold shapeOutput
  split
  · simp
  · split <;> simp

/-- C1: for every native call whose parsed status is a nonzero code in
`LIBJPEG_ERROR_CODES`, `decode`, `get_parameters` and `decode_pixel_data`
raise a single `RuntimeError` carrying the numeric code, the table
description and the native message, concatenated in that order; for a
nonzero code absent from the table they raise the unknown-code error
still carrying code and message; and code 0 never raises a
classification `RuntimeError`. -/
theorem C1_error_classification (fs : FS) (eng : Engine) (data src : List Nat)
    (ds : List (String × String)) (kwpi : Option String)
    (ct : Int) (rs : Bool) (code : Int) (msg : String)
    (hd : splitStatus (eng.decode data ct true).1 = some (code, msg))
    (hp : splitStatus (eng.get_parameters data).1 = some (code, msg))
    (hv2 : splitStatus (eng.decode src 0 false).1 = some (code, msg)) :
    (∀ desc, code ≠ 0 → lookupError code = some desc →
      decode fs eng (.buffer data) ct rs =
        .error (.runtimeError ("libjpeg error code " ++ sq ++ toString code ++ sq ++
          " returned from Decode(): " ++ desc ++ " - " ++ msg)) ∧
      get_parameters fs eng (.buffer data) =
        .error (.runtimeError ("libjpeg error code " ++ sq ++ toString code ++ sq ++
          " returned from GetJPEGParameters(): " ++ desc ++ " - " ++ msg)) ∧
      decode_pixel_data fs eng src ds kwpi 2 =
        ([], .error (.runtimeError ("libjpeg error code " ++ sq ++ toString code ++ sq ++
          " returned from Decode(): " ++ desc ++ " - " ++ msg)))) ∧
    (code ≠ 0 → lookupError code = none →
      decode fs eng (.buffer data) ct rs =
        .error (.runtimeError ("Unknown error code " ++ sq ++ toString code ++ sq ++
          " returned from Decode(): " ++ msg)) ∧
      get_parameters fs eng (.buffer data) =
        .error (.runtimeError ("Unknown error code " ++ sq ++ toString code ++ sq ++
          " returned from GetJPEGParameters(): " ++ msg)) ∧
      decode_pixel_data fs eng src ds kwpi 2 =
        ([], .error (.runtimeError ("Unknown error code " ++ sq ++ toString code ++ sq ++
          " returned from Decode(): " ++ msg)))) ∧
    (code = 0 →
      (∀ s, decode fs eng (.buffer data) ct rs ≠ .error (.runtimeError s)) ∧
      get_parameters fs eng (.buffer data) = .ok (eng.get_parameters data).2 ∧
      decode_pixel_data fs eng src ds kwpi 2 =
        ([], .ok (.bytes (eng.decode src 0 false).2.1))) := by
  have hdec : decode fs eng (.buffer data) ct rs =
      classifyDecodeResult rs (eng.decode data ct true) := rfl
  have hv2ne : ¬((2 : Int) = 1) := by decide
  refine ⟨?_, ?_, ?_⟩
  · intro desc hne htab
    refine ⟨?_, ?_, ?_⟩
    · rw [hdec]
      simp only [classifyDecodeResult, hd, if_neg hne, raiseForCode, htab]
    · simp only [get_parameters, normalizeGetParams, hp, if_neg hne, raiseForCode, htab]
    · simp only [decode_pixel_data, if_neg hv2ne, hv2, if_neg hne, raiseForCode, htab]
  · intro hne htab
    refine ⟨?_, ?_, ?_⟩
    · rw [hdec]
      simp only [classifyDecodeResult, hd, if_neg hne, raiseForCode, htab]
    · simp only [get_parameters, normalizeGetParams, hp, if_neg hne, raiseForCode, htab]
    · simp only [decode_pixel_data, if_neg hv2ne, hv2, if_neg hne, raiseForCode, htab]
  · intro h0
    subst h0
    refine ⟨?_, ?_, ?_⟩
    · intro s
      rw [hdec]
      simp only [classifyDecodeResult, hd, if_pos rfl]
      cases rs
      · simp
      · exact shapeOutput_not_runtimeError _ _ s
    · simp [get_parameters, normalizeGetParams, hp]
    · simp [decode_pixel_data, hv2]

/-- C1 witness: code -1036 from the engine makes `decode` and
`get_parameters` raise the table error with code, description and
message in order. -/
theorem C1_error_classification_witness :
    decode emptyFS errEngine1036 (.buffer []) 0 true =
      .error (.runtimeError ("libjpeg error code " ++ sq ++ "-1036" ++ sq ++
        " returned from Decode(): The stream passed in is no valid jpeg stream - oops")) ∧
    get_parameters emptyFS errEngine1036 (.buffer []) =
      .error (.runtimeError ("libjpeg error code " ++ sq ++ "-1036" ++ sq ++
        " returned from GetJPEGParameters(): The stream passed in is no valid jpeg stream - oops")) := by
  have h := C1_error_classification emptyFS errEngine1036 [] [] [] none 0 true
    (-1036) "oops" (by decide) (by decide) (by decide)
  have h2 := h.1 "The stream passed in is no valid jpeg stream" (by decide) (by decide)
  exact ⟨h2.1, h2.2.1⟩

/-- C2 counterexample: a status token whose message portion contains a
further four-colon substring is not split at the first delimiter; the
tuple unpacking of `status.split("::::")` fails instead. -/
theorem C2_first_split_counterexample :
    splitStatus "0::::a::::b" ≠ some (0, "a::::b") ∧
    splitStatus "0::::a::::b" = none := by decide

/-- C2 (amended): status parsing splits on the four-colon delimiter and
yields the integer code and verbatim message whenever the token contains
exactly one delimiter; `parse("0::::")` gives code 0 and empty message and
`parse("-1036::::bad stream")` gives code -1036 and message "bad stream";
but a message portion containing a further four-colon substring makes the
parse fail rather than split at the first occurrence. -/
theorem C2_status_split_amended :
    (∀ (c m : List Char) (k : Int), (∀ x ∈ c, x ≠ ':') → pyInt c = some k →
      splitOn4 m = [m] →
      splitStatus (String.mk (c ++ ':' :: ':' :: ':' :: ':' :: m)) =
        some (k, String.mk m)) ∧
    splitStatus "0::::" = some (0, "") ∧
    splitStatus "-1036::::bad stream" = some (-1036, "bad stream") ∧
    splitStatus "0::::a::::b" = none := by
  refine ⟨?_, by decide, by decide, by decide⟩
  intro c m k hc hk hm
  simp only [splitStatus, String.data]
  rw [splitOn4_append c m hc, hm]
  simp [hk]

/-- C2 witness: a concrete one-delimiter token parses to its code and
message. -/
theorem C2_status_split_witness :
    splitStatus (String.mk (['4'] ++ ':' :: ':' :: ':' :: ':' :: ['x'])) =
      some (4, String.mk ['x']) :=
  C2_status_split_amended.1 ['4'] ['x'] 4 (by decide) (by decide) (by decide)

/-- Inversion of the element-width reinterpretation: the element width
is 2 exactly when `ceil(precision / 8)` is 2, and then the elements are
the little-endian `<u2` view of the raw bytes; otherwise it is 1 and the
elements are the raw bytes. -/
theorem viewedOut_inv (out : List Nat) (p : ImageParameters)
    (elems : List Nat) (isz : Nat)
    (h : viewedOut out p = some (elems, isz)) :
    (isz = if (p.precision + 7) / 8 = 2 then 2 else 1) ∧
    ((p.precision + 7) / 8 = 2 → viewU2 out = some elems) ∧
    ((p.precision + 7) / 8 ≠ 2 → elems = out) := by
  unfold viewedOut at h
  split at h
  · next hb =>
    obtain ⟨e, he, heq⟩ := Option.map_eq_some'.mp h
    obtain ⟨he1, he2⟩ := Prod.mk.injEq .. ▸ heq
    subst he1
    exact ⟨by rw [if_pos hb, he2], fun _ => he, fun hn => absurd hb hn⟩
  · next hb =>
    obtain ⟨he1, he2⟩ := Prod.mk.injEq .. ▸ (Option.some.injEq .. ▸ h)
    exact ⟨by rw [if_neg hb, he2], fun hb2 => absurd hb2 hb, fun _ => he1.symm⟩

/-- Inversion of the success path of the `reshape`-true output shaper:
the array's element width comes from `viewedOut`, its shape is the
target shape, its data the reinterpreted elements, and the shape product
matches the element count. -/
theorem shapeOutput_ok_inv (out : List Nat) (p : ImageParameters)
    (arr : NDArray) (h : shapeOutput out p = .ok arr) :
    viewedOut out p = some (arr.data, arr.itemsize) ∧
    arr.shape = targetShape p ∧
    (targetShape p).prod = arr.data.length := by
  unfold shapeOutput at h
  split at h
  · exact absurd h (by simp)
  · next elems isz hv =>
    split at h
    · next hprod =>
      obtain he := Except.ok.injEq .. ▸ h
      subst he
      exact ⟨hv, rfl, hprod⟩
    · exact absurd h (by simp)

/-- Inversion of a successful `decode` call with `reshape` true through
the status classifier: the status parsed to code 0 and the shaper
produced the array. -/
theorem classify_reshape_ok_inv (r : String × List Nat × ImageParameters)
    (arr : NDArray) (h : classifyDecodeResult true r = .ok arr) :
    shapeOutput r.2.1 r.2.2 = .ok arr := by
  unfold classifyDecodeResult at h
  split at h
  · exact absurd h (by simp)
  · next code msg hs =>
    split at h
    · exact h
    · exact absurd h (by simp)

/-- C3: on every successful reshaped decode the element width of the
returned samples is 1 byte for declared precision 1 to 8 and 2 bytes
(the little-endian `<u2` view of the raw bytes) for precision 9 to 16,
determined by whether `ceil(precision / 8)` equals 2. -/
theorem C3_element_width (fs : FS) (eng : Engine) (data : List Nat)
    (ct : Int) (arr : NDArray)
    (harr : decode fs eng (.buffer data) ct true = .ok arr) :
    (1 ≤ (eng.decode data ct true).2.2.precision ∧
        (eng.decode data ct true).2.2.precision ≤ 8 → arr.itemsize = 1) ∧
    (9 ≤ (eng.decode data ct true).2.2.precision ∧
        (eng.decode data ct true).2.2.precision ≤ 16 →
      arr.itemsize = 2 ∧ viewU2 (eng.decode data ct true).2.1 = some arr.data) ∧
    (arr.itemsize = 2 ↔ ((eng.decode data ct true).2.2.precision + 7) / 8 = 2) := by
  have hc : classifyDecodeResult true (eng.decode data ct true) = .ok arr := harr
  obtain ⟨hv, _, _⟩ := shapeOutput_ok_inv _ _ _ (classify_reshape_ok_inv _ _ hc)
  obtain ⟨hisz, hview, _⟩ := viewedOut_inv _ _ _ _ hv
  refine ⟨?_, ?_, ?_⟩
  · intro ⟨h1, h2⟩
    rw [hisz, if_neg (by omega)]
  · intro ⟨h1, h2⟩
    have hb : ((eng.decode data ct true).2.2.precision + 7) / 8 = 2 := by omega
    exact ⟨by rw [hisz, if_pos hb], hview hb⟩
  · constructor
    · intro h2
      by_contra hb
      rw [hisz, if_neg hb] at h2
      exact absurd h2 (by decide)
    · intro hb
      rw [hisz, if_pos hb]

/-- C3 witness: precision 8 gives 1-byte elements and precision 9 gives
2-byte little-endian elements. -/
theorem C3_element_width_witness :
    decode emptyFS okEngine8 (.buffer []) 0 true = .ok ⟨1, [1, 1], [5]⟩ ∧
    NDArray.itemsize ⟨1, [1, 1], [5]⟩ = 1 ∧
    decode emptyFS okEngine9 (.buffer []) 0 true = .ok ⟨2, [1, 1], [263]⟩ ∧
    NDArray.itemsize ⟨2, [1, 1], [263]⟩ = 2 :=
  ⟨rfl,
   (C3_element_width emptyFS okEngine8 [] 0 ⟨1, [1, 1], [5]⟩ rfl).1 (by decide),
   rfl,
   ((C3_element_width emptyFS okEngine9 [] 0 ⟨2, [1, 1], [263]⟩ rfl).2.1 (by decide)).1⟩

/-- C4: every successful reshaped decode has shape `[rows, columns]` for
a single declared component and `[rows, columns, nr_components]` for
more than one, and the reshape fails with numpy's `ValueError` when the
reinterpreted element count differs from the shape product. -/
theorem C4_reshape_shape (fs : FS) (eng : Engine) (data : List Nat) (ct : Int) :
    (∀ arr, decode fs eng (.buffer data) ct true = .ok arr →
      ((eng.decode data ct true).2.2.nr_components = 1 →
        arr.shape = [(eng.decode data ct true).2.2.rows,
          (eng.decode data ct true).2.2.columns]) ∧
      ((eng.decode data ct true).2.2.nr_components > 1 →
        arr.shape = [(eng.decode data ct true).2.2.rows,
          (eng.decode data ct true).2.2.columns,
          (eng.decode data ct true).2.2.nr_components]) ∧
      (targetShape (eng.decode data ct true).2.2).prod = arr.data.length) ∧
    (∀ msg elems isz,
      splitStatus (eng.decode data ct true).1 = some (0, msg) →
      viewedOut (eng.decode data ct true).2.1 (eng.decode data ct true).2.2 =
        some (elems, isz) →
      (targetShape (eng.decode data ct true).2.2).prod ≠ elems.length →
      decode fs eng (.buffer data) ct true = .error (.valueError reshapeFailMsg)) := by
  constructor
  · intro arr harr
    have hc : classifyDecodeResult true (eng.decode data ct true) = .ok arr := harr
    obtain ⟨_, hshape, hprod⟩ := shapeOutput_ok_inv _ _ _ (classify_reshape_ok_inv _ _ hc)
    refine ⟨?_, ?_, hprod⟩
    · intro h1
      rw [hshape]
      unfold targetShape
      rw [if_neg (by omega)]
    · intro h1
      rw [hshape]
      unfold targetShape
      rw [if_pos h1]
  · intro msg elems isz hs hv hne
    have hd : decode fs eng (.buffer data) ct true =
        classifyDecodeResult true (eng.decode data ct true) := rfl
    rw [hd]
    unfold classifyDecodeResult
    rw [hs]
    simp only [if_pos rfl]
    unfold shapeOutput
    rw [hv]
    simp [if_neg hne]

/-- C4 witness: a 2x3 three-component success yields shape `[2, 3, 3]`,
and an engine declaring 1x1x1 while returning three bytes makes the
reshape fail. -/
theorem C4_reshape_shape_witness :
    decode emptyFS okEngineRGB (.buffer []) 0 true =
      .ok ⟨1, [2, 3, 3], [1, 2, 3, 4, 5, 6, 7, 8, 9, 10, 11, 12, 13, 14, 15, 16, 17, 18]⟩ ∧
    NDArray.shape ⟨1, [2, 3, 3], [1, 2, 3, 4, 5, 6, 7, 8, 9, 10, 11, 12, 13, 14, 15, 16, 17, 18]⟩ =
      [2, 3, 3] ∧
    decode emptyFS badShapeEngine (.buffer []) 0 true = .error (.valueError reshapeFailMsg) :=
  ⟨rfl,
   (((C4_reshape_shape emptyFS okEngineRGB [] 0).1 _ rfl).2.1 (by decide)),
   ((C4_reshape_shape emptyFS badShapeEngine [] 0).2 "" [1, 2, 3] 1
     (by decide) (by decide) (by decide))⟩

/-- C5 counterexample: for a declared precision of 16 (one 1x1
single-component sample, two raw bytes) the `reshape`-false result keeps
element width 1 and length 2 raw bytes: it is not reinterpreted into
rows x columns x components two-byte elements. -/
theorem C5_no_reinterpret_counterexample :
    decode emptyFS okEngine16 (.buffer []) 0 false = .ok ⟨1, [2], [52, 18]⟩ ∧
    NDArray.itemsize ⟨1, [2], [52, 18]⟩ ≠ 2 ∧
    (NDArray.data ⟨1, [2], [52, 18]⟩).length ≠ 1 * 1 * 1 ∧
    NDArray.data ⟨1, [2], [52, 18]⟩ ≠ [52 + 256 * 18] :=
  ⟨rfl, by decide, by decide, by decide⟩

/-- C5 (amended): on every successful decode with `reshape` false the
result is the engine's one-dimensional `uint8` byte buffer unchanged —
element width 1 and one element per raw byte, with no precision-derived
reinterpretation (so for precision 9 to 16 it holds twice
rows x columns x components elements, not samples). -/
theorem C5_flat_raw_amended (fs : FS) (eng : Engine) (data : List Nat)
    (ct : Int) (msg : String)
    (hs : splitStatus (eng.decode data ct true).1 = some (0, msg)) :
    decode fs eng (.buffer data) ct false =
      .ok ⟨1, [(eng.decode data ct true).2.1.length], (eng.decode data ct true).2.1⟩ := by
  have hd : decode fs eng (.buffer data) ct false =
      classifyDecodeResult false (eng.decode data ct true) := rfl
  rw [hd]
  unfold classifyDecodeResult
  rw [hs]
  simp

/-- C5 witness: the precision-16 engine's two raw bytes come back
unchanged as a flat uint8 buffer. -/
theorem C5_flat_raw_witness :
    decode emptyFS okEngine16 (.buffer []) 0 false = .ok ⟨1, [2], [52, 18]⟩ :=
  C5_flat_raw_amended emptyFS okEngine16 [] 0 "" (by decide)

/-- C6 counterexample: a photometric-interpretation label that is
present in the dataset but empty does not fall back to transform 0 with
a warning; `decode_pixel_data` raises the missing-element error (for an
engine that would have decoded successfully), with no warning emitted. -/
theorem C6_empty_label_counterexample :
    dsGet [("PhotometricInterpretation", "")] "PhotometricInterpretation" none =
      some "" ∧
    decode_pixel_data emptyFS okEngine8 [] [("PhotometricInterpretation", "")] none 1 =
      ([], .error (.valueError piMissingMsg)) :=
  ⟨rfl, rfl⟩

/-- C6 (amended): colour-transform selection maps "RGB" to 1 and
"MONOCHROME1", "MONOCHROME2", "YBR_FULL" and "YBR_FULL_422" to 0; any
other non-empty present label emits the non-fatal warning and falls back
to 0 with decoding proceeding; and when the resolved label is absent or
empty (Python falsiness) the call fails with the
missing-photometric-interpretation error for every engine, hence before
any native call. -/
theorem C6_colour_transform_amended (fs : FS) (eng : Engine) (src : List Nat)
    (ds : List (String × String)) (kwpi : Option String) (s : String) :
    (dsGet ds "PhotometricInterpretation" kwpi = some "RGB" →
      decode_pixel_data fs eng src ds kwpi 1 =
        ([], (decode fs eng (.buffer src) 1 false).map DPDResult.array)) ∧
    (s ∈ ["MONOCHROME1", "MONOCHROME2", "YBR_FULL", "YBR_FULL_422"] →
      dsGet ds "PhotometricInterpretation" kwpi = some s →
      decode_pixel_data fs eng src ds kwpi 1 =
        ([], (decode fs eng (.buffer src) 0 false).map DPDResult.array)) ∧
    (s ≠ "" → lookupColourspace s = none →
      dsGet ds "PhotometricInterpretation" kwpi = some s →
      decode_pixel_data fs eng src ds kwpi 1 =
        ([warnMsg s], (decode fs eng (.buffer src) 0 false).map DPDResult.array)) ∧
    (pyTruthy (dsGet ds "PhotometricInterpretation" kwpi) = false →
      decode_pixel_data fs eng src ds kwpi 1 =
        ([], .error (.valueError piMissingMsg))) := by
  refine ⟨?_, ?_, ?_, ?_⟩
  · intro h
    simp only [decode_pixel_data, if_pos rfl, h]
    rfl
  · intro hmem h
    simp only [List.mem_cons, List.mem_singleton, List.not_mem_nil, or_false] at hmem
    rcases hmem with rfl | rfl | rfl | rfl <;>
      · simp only [decode_pixel_data, if_pos rfl, h]
        rfl
  · intro hne hlook h
    have hemp : s.isEmpty = false := by
      cases he : s.isEmpty
      · rfl
      · exact absurd ((String.isEmpty_iff s).mp he) hne
    simp only [decode_pixel_data, if_pos rfl, h, pyTruthy, hemp, Bool.not_false,
      if_pos rfl, Option.getD_some, hlook, if_true]
  · intro h
    simp only [decode_pixel_data, if_pos rfl, h, Bool.false_eq_true, if_false, if_true]

/-- C6 witness: "RGB" selects transform 1, an unknown non-empty label
warns and proceeds with transform 0, and an absent label errors. -/
theorem C6_colour_transform_witness :
    decode_pixel_data emptyFS okEngine8 [9] [("PhotometricInterpretation", "RGB")] none 1 =
      ([], (decode emptyFS okEngine8 (.buffer [9]) 1 false).map DPDResult.array) ∧
    decode_pixel_data emptyFS okEngine8 [9] [("PhotometricInterpretation", "PALETTE COLOR")] none 1 =
      ([warnMsg "PALETTE COLOR"],
        (decode emptyFS okEngine8 (.buffer [9]) 0 false).map DPDResult.array) ∧
    decode_pixel_data emptyFS okEngine8 [9] [] none 1 =
      ([], .error (.valueError piMissingMsg)) :=
  ⟨(C6_colour_transform_amended emptyFS okEngine8 [9]
      [("PhotometricInterpretation", "RGB")] none "RGB").1 rfl,
   ((C6_colour_transform_amended emptyFS okEngine8 [9]
      [("PhotometricInterpretation", "PALETTE COLOR")] none "PALETTE COLOR").2.2.1
      (by decide) (by decide) rfl),
   ((C6_colour_transform_amended emptyFS okEngine8 [9] [] none "").2.2.2 (by decide))⟩

/-- C7 counterexample: a file-like exposing `read` but neither `seek`
nor `tell` makes `decode` fail with the `TypeError`, yet `get_parameters`
performs no capability check and succeeds on the same handle. -/
theorem C7_stream_check_counterexample :
    decode emptyFS okEngine8 (.stream true false false [3]) 0 true =
      .error (.typeError invalidTypeMsg) ∧
    get_parameters emptyFS okEngine8 (.stream true false false [3]) =
      .ok ⟨1, 1, 1, 8⟩ :=
  ⟨rfl, rfl⟩

/-- C7 (amended): only the `decode` path requires the `read`, `seek` and
`tell` capabilities, failing with the `TypeError` before any native call
when one is absent; `get_parameters` calls `read` directly with no
capability check, failing only when `read` itself is missing (with
`AttributeError`) and proceeding regardless of `seek`/`tell`; in both
paths a nonexistent path raises the not-found error and a byte buffer is
passed to the engine unchanged. -/
theorem C7_input_normalization_amended (fs : FS) (eng : Engine)
    (r s t : Bool) (c d : List Nat) (name : String) (ct : Int) (rs : Bool) :
    ((r && t && s) = false →
      decode fs eng (.stream r s t c) ct rs = .error (.typeError invalidTypeMsg)) ∧
    ((r && t && s) = true →
      decode fs eng (.stream r s t c) ct rs = decode fs eng (.buffer c) ct rs) ∧
    (get_parameters fs eng (.stream true s t c) =
      get_parameters fs eng (.buffer c)) ∧
    (get_parameters fs eng (.stream false s t c) =
      .error (.attributeError "read")) ∧
    (fs name = none →
      decode fs eng (.path name) ct rs = .error (.fileNotFoundError name) ∧
      get_parameters fs eng (.path name) = .error (.fileNotFoundError name)) ∧
    (normalizeDecode fs (.buffer d) = .ok d ∧
      normalizeGetParams fs (.buffer d) = .ok d) := by
  refine ⟨?_, ?_, rfl, rfl, ?_, rfl, rfl⟩
  · intro h
    simp only [decode, normalizeDecode, h, Bool.false_eq_true, if_false]
  · intro h
    simp only [decode, normalizeDecode, h, if_true]
  · intro h
    constructor
    · simp only [decode, normalizeDecode, h]
    · simp only [get_parameters, normalizeGetParams, h]

/-- C7 witness: concrete handles exercising the capability check of
`decode`, the unchecked read of `get_parameters`, and a missing path. -/
theorem C7_input_normalization_witness :
    decode emptyFS okEngine8 (.stream true true false [3]) 0 true =
      .error (.typeError invalidTypeMsg) ∧
    get_parameters emptyFS okEngine8 (.stream true true false [3]) =
      get_parameters emptyFS okEngine8 (.buffer [3]) ∧
    decode emptyFS okEngine8 (.path "missing.jpg") 0 true =
      .error (.fileNotFoundError "missing.jpg") :=
  ⟨(C7_input_normalization_amended emptyFS okEngine8 true true false [3] []
      "missing.jpg" 0 true).1 (by decide),
   (C7_input_normalization_amended emptyFS okEngine8 true false true [3] []
      "missing.jpg" 0 true).2.2.1,
   ((C7_input_normalization_amended emptyFS okEngine8 true true false [3] []
      "missing.jpg" 0 true).2.2.2.2.1 rfl).1⟩

/-- C8: version-2 `decode_pixel_data` passes colour transform 0 to the
engine unconditionally — its result does not depend on the dataset or
keyword label — and on success returns the engine's raw byte sequence
with no element-width reinterpretation and no reshaping. -/
theorem C8_version2_raw (fs : FS) (eng : Engine) (src : List Nat)
    (ds ds2 : List (String × String)) (kwpi kwpi2 : Option String)
    (msg : String) :
    (decode_pixel_data fs eng src ds kwpi 2 =
      decode_pixel_data fs eng src ds2 kwpi2 2) ∧
    (splitStatus (eng.decode src 0 false).1 = some (0, msg) →
      decode_pixel_data fs eng src ds kwpi 2 =
        ([], .ok (.bytes (eng.decode src 0 false).2.1))) := by
  constructor
  · rfl
  · intro hs
    simp [decode_pixel_data, hs]

/-- C8 witness: with an RGB dataset the version-2 call still returns the
raw bytes of the transform-0 engine call. -/
theorem C8_version2_raw_witness :
    decode_pixel_data emptyFS okEngine8 [9]
      [("PhotometricInterpretation", "RGB")] none 2 = ([], .ok (.bytes [5])) :=
  (C8_version2_raw emptyFS okEngine8 [9] [("PhotometricInterpretation", "RGB")]
    [] none none "").2 (by decide)

/-- C9: in version-1 `decode_pixel_data` the dataset's
PhotometricInterpretation value is the one used whenever the element is
present — the keyword argument is only a fallback for an absent element,
so the result does not depend on the keyword when the dataset has the
element. -/
theorem C9_dataset_precedence (ds : List (String × String))
    (kwpi kwpi2 : Option String) (v : String) (fs : FS) (eng : Engine)
    (src : List Nat) :
    ((ds.find? (fun p => p.1 == "PhotometricInterpretation")).map Prod.snd =
        some v →
      dsGet ds "PhotometricInterpretation" kwpi = some v) ∧
    (ds.find? (fun p => p.1 == "PhotometricInterpretation") = none →
      dsGet ds "PhotometricInterpretation" kwpi = kwpi) ∧
    ((ds.find? (fun p => p.1 == "PhotometricInterpretation")).isSome = true →
      decode_pixel_data fs eng src ds kwpi 1 =
        decode_pixel_data fs eng src ds kwpi2 1) := by
  refine ⟨?_, ?_, ?_⟩
  · intro h
    obtain ⟨p, hp, hv⟩ := Option.map_eq_some'.mp h
    simp only [dsGet, hp, hv]
  · intro h
    simp only [dsGet, h]
  · intro h
    obtain ⟨p, hp⟩ := Option.isSome_iff_exists.mp h
    simp only [decode_pixel_data, if_pos rfl, dsGet, hp]

/-- C9 witness: with the dataset holding MONOCHROME2 the keyword
argument RGB is ignored and the dataset value is selected. -/
theorem C9_dataset_precedence_witness :
    dsGet [("PhotometricInterpretation", "MONOCHROME2")]
      "PhotometricInterpretation" (some "RGB") = some "MONOCHROME2" ∧
    decode_pixel_data emptyFS okEngine8 [9]
      [("PhotometricInterpretation", "MONOCHROME2")] (some "RGB") 1 =
    decode_pixel_data emptyFS okEngine8 [9]
      [("PhotometricInterpretation", "MONOCHROME2")] none 1 :=
  ⟨(C9_dataset_precedence [("PhotometricInterpretation", "MONOCHROME2")]
      (some "RGB") none "MONOCHROME2" emptyFS okEngine8 [9]).1 rfl,
   (C9_dataset_precedence [("PhotometricInterpretation", "MONOCHROME2")]
      (some "RGB") none "MONOCHROME2" emptyFS okEngine8 [9]).2.2 rfl⟩

/-- C10: `decode_pixel_data` never validates its version argument: every
version different from 1 takes the version-2 raw-bytes path, so the call
behaves exactly like version 2 rather than raising. -/
theorem C10_version_not_validated (fs : FS) (eng : Engine) (src : List Nat)
    (ds : List (String × String)) (kwpi : Option String) (version : Int)
    (hv : version ≠ 1) :
    decode_pixel_data fs eng src ds kwpi version =
      decode_pixel_data fs eng src ds kwpi 2 := by
  simp [decode_pixel_data, if_neg hv]

/-- C10 witness: versions 3 and 0 behave exactly like version 2. -/
theorem C10_version_not_validated_witness :
    decode_pixel_data emptyFS okEngine8 [9] [] none 3 =
      decode_pixel_data emptyFS okEngine8 [9] [] none 2 ∧
    decode_pixel_data emptyFS okEngine8 [9] [] none 0 =
      decode_pixel_data emptyFS okEngine8 [9] [] none 2 :=
  ⟨C10_version_not_validated emptyFS okEngine8 [9] [] none 3 (by decide),
   C10_version_not_validated emptyFS okEngine8 [9] [] none 0 (by decide)⟩
